import Mathlib

/-!
Shallow embedding of the `venvmanager` repository core
(`src/envmanager/__init__.py`, `src/envmanager/_pypi.py`,
`src/venvmngr/utils.py`) and proofs about the spec's claims.

External effects (subprocess exit codes and output, the filesystem, the
package-index HTTP fetch) are passed in as explicit parameters, so every
operation is a pure function of the code's inputs plus the outcome of the
external calls it makes.
-/

deriving instance DecidableEq for Except

namespace EnvMngr

/-- Python exception classes that appear in the embedded code. -/
inductive ExcKind where
  | valueError
  | fileNotFoundError
  | getPackageInfoError
  deriving DecidableEq, Repr

/-- The `__cause__` chained onto a raised exception (`raise ... from exc`). -/
inductive PyCause where
  /-- `subprocess.CalledProcessError(returncode, cmd)`. -/
  | calledProcessError (returncode : Int) (cmd : List String)
  /-- `json.JSONDecodeError` from `json.loads`. -/
  | jsonDecodeError
  /-- `requests.RequestException` (network failure, `raise_for_status` on a
  non-2xx response, or `response.json()` on a malformed body). -/
  | requestException
  deriving DecidableEq, Repr

/-- A raised Python exception: its class, message and chained cause. -/
structure PyExc where
  kind : ExcKind
  msg : String
  cause : Option PyCause
  deriving DecidableEq, Repr

/-- `true` exactly on a raised exception (an `Except.error`). -/
def isError {α : Type} : Except PyExc α → Bool
  | .error _ => true
  | .ok _ => false

/-- `install_cmd[-1] = x`: replace the last element of the command list. -/
def setLast (xs : List String) (x : String) : List String :=
  xs.dropLast ++ [x]

/-- The install command built by `EnvManager.install_package`
(src/envmanager/__init__.py lines 72-83): starts from
`[python_exe, "-m", "pip", "install", package_name]`; under Python's
truthiness test `if version:` a `None` or empty version leaves it unchanged;
otherwise, when `version[0] in ("<", ">", "=")` the last element becomes the
f-string `'"{package_name}{version}"'` (literal double quotes included),
else `'"{package_name}=={version}"'`; finally `--upgrade` is appended when
`upgrade` is true. -/
def buildInstallCmd (python_exe package_name : String) (version : Option String)
    (upgrade : Bool) : List String :=
  let install_cmd := [python_exe, "-m", "pip", "install", package_name]
  let install_cmd :=
    match version with
    | none => install_cmd
    | some v =>
      if v = "" then install_cmd
      else if v.front = '<' ∨ v.front = '>' ∨ v.front = '=' then
        setLast install_cmd ("\"" ++ package_name ++ v ++ "\"")
      else
        setLast install_cmd ("\"" ++ package_name ++ "==" ++ v ++ "\"")
  if upgrade then install_cmd ++ ["--upgrade"] else install_cmd

/-- `EnvManager.install_package` (src/envmanager/__init__.py lines 60-89).
`run` gives the exit code of the external subprocess for a command;
`subprocess.check_call` raises `CalledProcessError` exactly on a non-zero
exit code, and the code catches that and returns `False`; a zero exit code
returns `True`. No exception escapes. -/
def install_package (python_exe package_name : String) (version : Option String)
    (upgrade : Bool) (run : List String → Int) : Except PyExc Bool :=
  let install_cmd := buildInstallCmd python_exe package_name version upgrade
  if run install_cmd = 0 then Except.ok true else Except.ok false

/-- A subprocess world in which every invocation exits with code 1. -/
def alwaysExitOne : List String → Int := fun _ => 1

/-! ### ProcessRunner: `run_subprocess_with_streams` (src/venvmngr/utils.py) -/

/-- What the external subprocess did: the lines each of its two pipes
emitted, and its exit code. -/
structure ProcOutcome where
  stdoutLines : List String
  stderrLines : List String
  returncode : Int
  deriving DecidableEq, Repr

/-- The observable result of one `run_subprocess_with_streams` call: the
lines handed to each callback, and the Python return value (`Option Int`
because the function body has no `return` statement, so it returns `None`)
or the raised exception. The reader threads are joined before
`process.wait()` and before the exit code is inspected, so the delivered
lines are complete in the error case as well; the sequential model shows
that by carrying the full delivered lists alongside the raised error. -/
structure RunOutput where
  stdoutDelivered : List String
  stderrDelivered : List String
  result : Except PyExc (Option Int)
  deriving DecidableEq, Repr

/-- `read_stream` (src/venvmngr/utils.py lines 48-52): each line is passed
to the callback when one is supplied, otherwise read and discarded. -/
def read_stream (lines : List String) (hasCallback : Bool) : List String :=
  if hasCallback then lines else []

/-- `run_subprocess_with_streams` (src/venvmngr/utils.py lines 39-75):
drains both pipes through `read_stream`, waits, then raises
`ValueError(f"Failed to call {' '.join(args)}") from
CalledProcessError(process.returncode, process.args)` when the exit code is
non-zero; otherwise falls off the end of the function, returning `None`. -/
def run_subprocess_with_streams (args : List String) (proc : ProcOutcome)
    (hasStdoutCallback hasStderrCallback : Bool) : RunOutput :=
  let stdoutDelivered := read_stream proc.stdoutLines hasStdoutCallback
  let stderrDelivered := read_stream proc.stderrLines hasStderrCallback
  if proc.returncode = 0 then
    ⟨stdoutDelivered, stderrDelivered, Except.ok none⟩
  else
    ⟨stdoutDelivered, stderrDelivered,
      Except.error ⟨ExcKind.valueError,
        "Failed to call " ++ String.intercalate " " args,
        some (PyCause.calledProcessError proc.returncode args)⟩⟩

/-! ### Package listing: `all_packages` and the local-version lookup -/

/-- One element of pip's `list --format=json` output
(`PackageListEntry` TypedDict in src/envmanager/__init__.py). -/
structure PackageListEntry where
  name : String
  version : String
  deriving DecidableEq, Repr

/-- Result of `json.loads` on the captured output: the parsed value or a
`json.JSONDecodeError`. -/
inductive JsonResult (α : Type) where
  | ok (v : α)
  | decodeError
  deriving DecidableEq, Repr

/-- A JSON value sitting in the remote payload's `info.version` slot:
either `null` or a string. -/
inductive JVal where
  | null
  | str (s : String)
  deriving DecidableEq, Repr

/-- The `info` object of the PyPI payload, keeping only the key the code
reads: `version`, which may be absent (`none`) or present (possibly
`null`). -/
structure Info where
  version : Option JVal
  deriving DecidableEq, Repr

/-- The PyPI JSON payload (`PackageData` in src/envmanager/_pypi.py),
keeping only the key the code reads: `info`, which may be absent. -/
structure PData where
  info : Option Info
  deriving DecidableEq, Repr

/-- Outcome of the HTTP fetch inside `get_package_info`
(src/envmanager/_pypi.py lines 109-118): either the parsed JSON payload, or
a `requests.RequestException` — which covers network failure,
`raise_for_status` on a non-2xx status, and `response.json()` on a
malformed body (`requests.JSONDecodeError` subclasses
`RequestException`). -/
inductive FetchOutcome where
  | success (d : PData)
  | requestError
  deriving DecidableEq, Repr

/-- Everything the environment manager's read operations observe from
outside: the `pip list --format=json` subprocess (its captured output, or
the exit code of a `CalledProcessError`), the behaviour of `json.loads` on
that output, and the index fetch outcome. -/
structure World where
  listOutcome : Except Int String
  jsonLoads : String → JsonResult (List PackageListEntry)
  fetch : FetchOutcome

/-- The pip listing command `EnvManager.all_packages` runs. -/
def listCmd (python_exe : String) : List String :=
  [python_exe, "-m", "pip", "list", "--format=json"]

/-- `EnvManager.all_packages` (src/envmanager/__init__.py lines 91-110):
`subprocess.check_output` failure is re-raised as
`ValueError("Failed to list packages.") from exc`; `json.loads` failure as
`ValueError("Failed to parse pip output.") from exc`. -/
def all_packages (python_exe : String) (w : World) :
    Except PyExc (List PackageListEntry) :=
  match w.listOutcome with
  | Except.error code =>
      Except.error ⟨ExcKind.valueError, "Failed to list packages.",
        some (PyCause.calledProcessError code (listCmd python_exe))⟩
  | Except.ok result =>
      match w.jsonLoads result with
      | JsonResult.ok packages => Except.ok packages
      | JsonResult.decodeError =>
          Except.error ⟨ExcKind.valueError, "Failed to parse pip output.",
            some PyCause.jsonDecodeError⟩

/-- Python's `str.lower()` on the package names this code handles:
lower-case every character. Mapped over the character list so that it
evaluates by structural recursion. -/
def pyLower (s : String) : String :=
  ⟨s.data.map Char.toLower⟩

/-- `EnvManager.get_local_package` (src/envmanager/__init__.py lines
112-125): first entry whose lower-cased name equals the lower-cased query,
else `None`; exceptions from `all_packages` propagate. -/
def get_local_package (python_exe : String) (w : World) (package_name : String) :
    Except PyExc (Option PackageListEntry) :=
  match all_packages python_exe w with
  | Except.error e => Except.error e
  | Except.ok pkgs =>
      Except.ok (pkgs.find? (fun pkg => pyLower pkg.name == pyLower package_name))

/-- `EnvManager.get_package_version` (src/envmanager/__init__.py lines
127-141): the `version` field of the local entry when found, else `None`. -/
def get_package_version (python_exe : String) (w : World) (package_name : String) :
    Except PyExc (Option String) :=
  match get_local_package python_exe w package_name with
  | Except.error e => Except.error e
  | Except.ok listentry => Except.ok (listentry.map (fun e => e.version))

/-! ### The index client and the update check -/

/-- `get_package_info` (src/envmanager/_pypi.py lines 109-118): returns the
payload, or raises `GetPackageInfoError(f"Failed to fetch package data for
{package_name}.") from exc` on any `requests.RequestException`. -/
def get_package_info (package_name : String) (o : FetchOutcome) :
    Except PyExc PData :=
  match o with
  | FetchOutcome.success d => Except.ok d
  | FetchOutcome.requestError =>
      Except.error ⟨ExcKind.getPackageInfoError,
        "Failed to fetch package data for " ++ package_name ++ ".",
        some PyCause.requestException⟩

/-- `EnvManager.get_remote_package` (src/envmanager/__init__.py lines
143-160): calls `get_package_info`, converting a `GetPackageInfoError` — and
only that class — into `None`. -/
def get_remote_package (package_name : String) (o : FetchOutcome) :
    Except PyExc (Option PData) :=
  match get_package_info package_name o with
  | Except.ok d => Except.ok (some d)
  | Except.error e =>
      if e.kind = ExcKind.getPackageInfoError then Except.ok none
      else Except.error e

/-- The `ValueError("Invalid package data.")` raised by
`package_update_available` on a structurally bad remote payload. -/
def invalidPackageDataExc : PyExc :=
  ⟨ExcKind.valueError, "Invalid package data.", none⟩

/-- `EnvManager.package_update_available` (src/envmanager/__init__.py lines
175-205). Returns the tuple `(update_available, latest_version,
local_version)`; raises `ValueError("Invalid package data.")` when `"info"`
is missing from the payload, when `"version"` is missing from `info`, or
when `info["version"]` is `null`; otherwise the flag is
`latest_version != local_version` (string inequality). -/
def package_update_available (python_exe : String) (w : World)
    (package_name : String) :
    Except PyExc (Bool × Option String × Option String) :=
  match get_package_version python_exe w package_name with
  | Except.error e => Except.error e
  | Except.ok none => Except.ok (false, none, none)
  | Except.ok (some local_version) =>
      match get_remote_package package_name w.fetch with
      | Except.error e => Except.error e
      | Except.ok none => Except.ok (false, none, some local_version)
      | Except.ok (some remote_data) =>
          match remote_data.info with
          | none => Except.error invalidPackageDataExc
          | some inf =>
              match inf.version with
              | none => Except.error invalidPackageDataExc
              | some JVal.null => Except.error invalidPackageDataExc
              | some (JVal.str latest_version) =>
                  Except.ok (latest_version != local_version,
                    some latest_version, some local_version)

/-! ### Interpreter location and `EnvManager` construction -/

/-- Host operating system, as distinguished by `platform.system()`. -/
inductive HostOS where
  | windows
  | posix
  deriving DecidableEq, Repr

/-- The host's path separator, as inserted by `os.path.join`. -/
def sepStr : HostOS → String
  | HostOS.windows => "\\"
  | HostOS.posix => "/"

/-- `os.path.join(a, b, c)` for the shapes occurring in this code (a
non-empty first component not already ending in a separator, and relative
second and third components): insert the host separator between consecutive
components. -/
def os_path_join3 (host : HostOS) (a b c : String) : String :=
  a ++ (sepStr host ++ (b ++ (sepStr host ++ c)))

/-- `EnvManager.get_python_executable` (src/envmanager/__init__.py lines
29-47): joins the OS-conventional interpreter subpath onto the environment
root, then raises `FileNotFoundError` unless `os.path.isfile` accepts the
result. `isfile` is the filesystem's regular-file test. -/
def get_python_executable (host : HostOS) (env_path : String)
    (isfile : String → Bool) : Except PyExc String :=
  let python_exe :=
    match host with
    | HostOS.windows => os_path_join3 HostOS.windows env_path "Scripts" "python.exe"
    | HostOS.posix => os_path_join3 HostOS.posix env_path "bin" "python"
  if isfile python_exe then Except.ok python_exe
  else
    Except.error ⟨ExcKind.fileNotFoundError,
      "Python executable not found in virtual environment at " ++ env_path,
      none⟩

/-- The state an `EnvManager` holds after `__init__`. -/
structure EnvManager where
  env_path : String
  python_exe : String
  deriving DecidableEq, Repr

/-- `EnvManager.__init__` (src/envmanager/__init__.py lines 18-27): stores
the root and the result of `get_python_executable`; construction raises
exactly when `get_python_executable` raises. -/
def EnvManager.construct (host : HostOS) (env_path : String)
    (isfile : String → Bool) : Except PyExc EnvManager :=
  match get_python_executable host env_path isfile with
  | Except.error e => Except.error e
  | Except.ok python_exe => Except.ok ⟨env_path, python_exe⟩

/-! ### Concrete worlds used when instantiating the theorems -/

/-- The class of a raised exception — what a Python `except SomeClass:`
clause can discriminate on — or `none` for a normal return. -/
def excKindOf {α : Type} : Except PyExc α → Option ExcKind
  | Except.error e => some e.kind
  | Except.ok _ => none

/-- A world where `dummy 2.0` is installed and the index answers with
version `1.0` — a local version ahead of the index. -/
def wAhead : World :=
  { listOutcome := Except.ok "[\x7b\"name\": \"dummy\", \"version\": \"2.0\"\x7d]"
    jsonLoads := fun _ => JsonResult.ok [⟨"dummy", "2.0"⟩]
    fetch := FetchOutcome.success ⟨some ⟨some (JVal.str "1.0")⟩⟩ }

/-- A world where `dummy 2.0` is installed and the index fetch fails. -/
def wLookupFail : World :=
  { listOutcome := Except.ok "[\x7b\"name\": \"dummy\", \"version\": \"2.0\"\x7d]"
    jsonLoads := fun _ => JsonResult.ok [⟨"dummy", "2.0"⟩]
    fetch := FetchOutcome.requestError }

/-- A world where `dummy 2.0` is installed and the index fetch succeeds but
the payload has no `info` object. -/
def wNoInfo : World :=
  { listOutcome := Except.ok "\x7b\x7d"
    jsonLoads := fun _ => JsonResult.ok [⟨"dummy", "2.0"⟩]
    fetch := FetchOutcome.success ⟨none⟩ }

/-- A world where the `pip list` subprocess itself exits with code 1. -/
def wListBroken : World :=
  { listOutcome := Except.error 1
    jsonLoads := fun _ => JsonResult.ok []
    fetch := FetchOutcome.requestError }

/-- A world where `pip list` succeeds but prints something `json.loads`
rejects. -/
def wListGarbage : World :=
  { listOutcome := Except.ok "garbage"
    jsonLoads := fun _ => JsonResult.decodeError
    fetch := FetchOutcome.requestError }

/-! ## Theorems -/

/-- Claim C1, counterexample: when the install subprocess exits with code 1
for a nonexistent package, `install_package` evaluates to the boolean
result `False` and raises nothing — it does not raise any
`PackageInstallError`-kind exception. -/
theorem install_failure_returns_false_cex :
    install_package "python" "nonexistent-package" none false alwaysExitOne =
      Except.ok false ∧
    isError (install_package "python" "nonexistent-package" none false
      alwaysExitOne) = false := by
  decide

/-- Claim C1, amended: for every package name and every subprocess world,
a non-zero exit code of the install command makes `install_package` return
the boolean `False` (and a zero exit code the boolean `True`); no exception
is ever raised — install failure is silently converted to a boolean
result. -/
theorem install_failure_returns_bool (python_exe package_name : String)
    (version : Option String) (upgrade : Bool) (run : List String → Int) :
    (run (buildInstallCmd python_exe package_name version upgrade) ≠ 0 →
      install_package python_exe package_name version upgrade run =
        Except.ok false) ∧
    (run (buildInstallCmd python_exe package_name version upgrade) = 0 →
      install_package python_exe package_name version upgrade run =
        Except.ok true) ∧
    isError (install_package python_exe package_name version upgrade run) =
      false := by
  by_cases h : run (buildInstallCmd python_exe package_name version upgrade) = 0 <;>
    simp [install_package, isError, h]

/-- Claim C1, witness: the amended theorem applied to a concrete world in
which the install subprocess exits with code 1. -/
theorem install_failure_returns_bool_witness :
    install_package "python" "nonexistent-package" none false alwaysExitOne =
      Except.ok false :=
  (install_failure_returns_bool "python" "nonexistent-package" none false
    alwaysExitOne).1 (by decide)

/-- Claim C4, counterexample: with version `">=1.0"` the package argument
of the install command is the quoted string `"pkg>=1.0"` — two literal
double-quote characters are added around it — and not the bare `pkg>=1.0`
the claim says is passed verbatim with nothing else added. -/
theorem install_cmd_quotes_added_cex :
    buildInstallCmd "py" "pkg" (some ">=1.0") false =
      ["py", "-m", "pip", "install", "\"pkg>=1.0\""] ∧
    ("\"pkg>=1.0\"" : String) ≠ ">=1.0" ∧
    ("\"pkg>=1.0\"" : String) ≠ "pkg>=1.0" := by
  decide

/-- Claim C4, amended: for a non-empty version string, when its first
character is one of `<`, `>`, `=` the install command's package argument is
the package name with the constraint appended, wrapped in literal double
quotes (`"name>=1.0"` including the quote characters); otherwise it is
`name==value` likewise wrapped in literal double quotes. -/
theorem install_cmd_version_argument (python_exe package_name v : String)
    (upgrade : Bool) (hv : v ≠ "") :
    (v.front = '<' ∨ v.front = '>' ∨ v.front = '=' →
      buildInstallCmd python_exe package_name (some v) upgrade =
        [python_exe, "-m", "pip", "install",
          "\"" ++ package_name ++ v ++ "\""] ++
        (if upgrade then ["--upgrade"] else [])) ∧
    (¬(v.front = '<' ∨ v.front = '>' ∨ v.front = '=') →
      buildInstallCmd python_exe package_name (some v) upgrade =
        [python_exe, "-m", "pip", "install",
          "\"" ++ package_name ++ "==" ++ v ++ "\""] ++
        (if upgrade then ["--upgrade"] else [])) := by
  constructor <;> intro h <;>
    simp [buildInstallCmd, setLast, hv, h] <;>
    by_cases hu : upgrade <;> simp [hu]

/-- Claim C4, witness: the amended theorem applied to the constraint
`">=1.0"`, whose first character is an operator. -/
theorem install_cmd_version_argument_witness :
    buildInstallCmd "py" "pkg" (some ">=1.0") true =
      ["py", "-m", "pip", "install", "\"pkg>=1.0\""] ++
      (if true then ["--upgrade"] else []) :=
  (install_cmd_version_argument "py" "pkg" ">=1.0" true (by decide)).1
    (by decide)

/-- Claim C3, counterexample: on a successful run (exit code 0) the
function's return value is `None` — Python's implicit return, since the
body has no `return` statement — and not the process's exit code `0` as the
claim's contract `run(...) -> exit_code` states. -/
theorem run_streams_returns_none_cex :
    (run_subprocess_with_streams ["pip", "--version"]
      ⟨["pip 24.0"], [], 0⟩ true true).result = Except.ok none ∧
    (run_subprocess_with_streams ["pip", "--version"]
      ⟨["pip 24.0"], [], 0⟩ true true).result ≠ Except.ok (some 0) := by
  decide

/-- Claim C3, amended: for every argv and subprocess outcome, with both
sinks supplied every emitted line of each stream is delivered to its sink
(also when the run ends in failure — the threads are joined before the exit
code is inspected); a zero exit code returns `None` (the exit code is not
returned), and a non-zero exit code raises a `ValueError` whose message
names the argv and whose chained `CalledProcessError` cause carries the
argv and the exit code. -/
theorem run_streams_behaviour (args : List String) (proc : ProcOutcome) :
    (run_subprocess_with_streams args proc true true).stdoutDelivered =
      proc.stdoutLines ∧
    (run_subprocess_with_streams args proc true true).stderrDelivered =
      proc.stderrLines ∧
    (proc.returncode = 0 →
      (run_subprocess_with_streams args proc true true).result =
        Except.ok none) ∧
    (proc.returncode ≠ 0 →
      (run_subprocess_with_streams args proc true true).result =
        Except.error ⟨ExcKind.valueError,
          "Failed to call " ++ String.intercalate " " args,
          some (PyCause.calledProcessError proc.returncode args)⟩) := by
  by_cases h : proc.returncode = 0 <;>
    simp [run_subprocess_with_streams, read_stream, h]

/-- Claim C3, witness: the amended theorem applied to a run that exits with
code 2 after emitting one line on each stream. -/
theorem run_streams_behaviour_witness :
    (run_subprocess_with_streams ["pip"] ⟨["out"], ["err"], 2⟩ true
      true).result =
      Except.error ⟨ExcKind.valueError,
        "Failed to call " ++ String.intercalate " " ["pip"],
        some (PyCause.calledProcessError 2 ["pip"])⟩ :=
  (run_streams_behaviour ["pip"] ⟨["out"], ["err"], 2⟩).2.2.2 (by decide)

/-- Claim C2: when the local version of the package is known and the index
fetch succeeds with a payload carrying a version string, the update check
returns `(latest != local, latest, local)`: the `update_available` flag is
true exactly when the two version strings differ as values — plain
inequality, not strict ordering — so a local version ahead of the index is
also reported as an available update. -/
theorem update_available_iff_versions_differ
    (python_exe package_name lv latest : String) (w : World) (pd : PData)
    (inf : Info)
    (hlocal : get_package_version python_exe w package_name =
      Except.ok (some lv))
    (hfetch : w.fetch = FetchOutcome.success pd)
    (hinfo : pd.info = some inf)
    (hver : inf.version = some (JVal.str latest)) :
    package_update_available python_exe w package_name =
      Except.ok (latest != lv, some latest, some lv) ∧
    ((latest != lv) = true ↔ lv ≠ latest) := by
  constructor
  · unfold package_update_available
    rw [hlocal, hfetch]
    simp [get_remote_package, get_package_info, hinfo, hver]
  · rw [bne_iff_ne]
    exact ne_comm

/-- Claim C2, witness: the theorem applied to the world `wAhead`, where the
local version `2.0` is ahead of the index's `1.0`; the flag is still
reported true because the strings differ. -/
theorem update_available_iff_versions_differ_witness :
    package_update_available "python" wAhead "dummy" =
      Except.ok (("1.0" : String) != "2.0", some "1.0", some "2.0") ∧
    ((("1.0" : String) != "2.0") = true ↔ ("2.0" : String) ≠ "1.0") :=
  update_available_iff_versions_differ "python" "dummy" "2.0" "1.0" wAhead
    ⟨some ⟨some (JVal.str "1.0")⟩⟩ ⟨some (JVal.str "1.0")⟩
    (by decide) rfl rfl rfl

/-- Claim C5: when the local version of the package is known and the index
lookup fails (network failure, non-2xx status, or malformed JSON — all
surfacing as `requests.RequestException` and hence `GetPackageInfoError`),
the update check raises nothing: it returns the soft result
`(False, None, local_version)` with the local version still populated. -/
theorem lookup_failure_soft_result (python_exe package_name lv : String)
    (w : World)
    (hlocal : get_package_version python_exe w package_name =
      Except.ok (some lv))
    (hfetch : w.fetch = FetchOutcome.requestError) :
    package_update_available python_exe w package_name =
      Except.ok (false, none, some lv) := by
  unfold package_update_available
  rw [hlocal, hfetch]
  simp [get_remote_package, get_package_info]

/-- Claim C5, witness: the theorem applied to the world `wLookupFail`,
where `dummy 2.0` is installed and the index fetch fails. -/
theorem lookup_failure_soft_result_witness :
    package_update_available "python" wLookupFail "dummy" =
      Except.ok (false, none, some "2.0") :=
  lookup_failure_soft_result "python" "dummy" "2.0" wLookupFail
    (by decide) rfl

/-- Claim C6: when the local version of the package is known and the index
fetch succeeds but the payload has no `info` object, or an `info` object
without a `version` key, the update check raises
`ValueError("Invalid package data.")` — a failure, not the soft
`(False, None, local_version)` result produced by a lookup failure. -/
theorem invalid_remote_payload_raises (python_exe package_name lv : String)
    (w : World) (pd : PData)
    (hlocal : get_package_version python_exe w package_name =
      Except.ok (some lv))
    (hfetch : w.fetch = FetchOutcome.success pd)
    (hbad : pd.info = none ∨
      ∃ inf, pd.info = some inf ∧ inf.version = none) :
    package_update_available python_exe w package_name =
      Except.error invalidPackageDataExc ∧
    package_update_available python_exe w package_name ≠
      Except.ok (false, none, some lv) := by
  have hmain : package_update_available python_exe w package_name =
      Except.error invalidPackageDataExc := by
    unfold package_update_available
    rw [hlocal, hfetch]
    rcases hbad with h | ⟨inf, hinf, hver⟩
    · simp [get_remote_package, get_package_info, h]
    · simp [get_remote_package, get_package_info, hinf, hver]
  refine ⟨hmain, ?_⟩
  rw [hmain]
  simp

/-- Claim C6, witness: the theorem applied to the world `wNoInfo`, whose
successfully fetched payload lacks the `info` object. -/
theorem invalid_remote_payload_raises_witness :
    package_update_available "python" wNoInfo "dummy" =
      Except.error invalidPackageDataExc ∧
    package_update_available "python" wNoInfo "dummy" ≠
      Except.ok (false, none, some "2.0") :=
  invalid_remote_payload_raises "python" "dummy" "2.0" wNoInfo ⟨none⟩
    (by decide) rfl (Or.inl rfl)

/-- Claim C7, counterexample: an invocation failure of the listing
subprocess and unparsable listing output both raise an exception of the
same Python class (`ValueError`) — the caller cannot tell the two causes
apart as distinct catchable kinds. -/
theorem list_failures_same_kind_cex :
    isError (all_packages "python" wListBroken) = true ∧
    isError (all_packages "python" wListGarbage) = true ∧
    excKindOf (all_packages "python" wListBroken) =
      excKindOf (all_packages "python" wListGarbage) := by
  decide

/-- Claim C7, amended: both failure paths of `all_packages` raise a
`ValueError` — invocation failure as
`ValueError("Failed to list packages.")` chained from the
`CalledProcessError`, malformed JSON as
`ValueError("Failed to parse pip output.")` chained from the
`JSONDecodeError`. The two causes carry the same catchable exception class
and are distinguishable only by message (or chained cause), not as distinct
catchable kinds. -/
theorem list_failures_valueerror (python_exe output : String) (code : Int)
    (w1 w2 : World)
    (h1 : w1.listOutcome = Except.error code)
    (h2 : w2.listOutcome = Except.ok output)
    (h3 : w2.jsonLoads output = JsonResult.decodeError) :
    all_packages python_exe w1 =
      Except.error ⟨ExcKind.valueError, "Failed to list packages.",
        some (PyCause.calledProcessError code (listCmd python_exe))⟩ ∧
    all_packages python_exe w2 =
      Except.error ⟨ExcKind.valueError, "Failed to parse pip output.",
        some PyCause.jsonDecodeError⟩ ∧
    excKindOf (all_packages python_exe w1) =
      excKindOf (all_packages python_exe w2) := by
  have e1 : all_packages python_exe w1 =
      Except.error ⟨ExcKind.valueError, "Failed to list packages.",
        some (PyCause.calledProcessError code (listCmd python_exe))⟩ := by
    unfold all_packages
    rw [h1]
  have e2 : all_packages python_exe w2 =
      Except.error ⟨ExcKind.valueError, "Failed to parse pip output.",
        some PyCause.jsonDecodeError⟩ := by
    unfold all_packages
    rw [h2]
    simp [h3]
  exact ⟨e1, e2, by simp [e1, e2, excKindOf]⟩

/-- Claim C7, witness: the amended theorem applied to the two concrete
worlds `wListBroken` (exit code 1) and `wListGarbage` (unparsable
output). -/
theorem list_failures_valueerror_witness :
    all_packages "python" wListBroken =
      Except.error ⟨ExcKind.valueError, "Failed to list packages.",
        some (PyCause.calledProcessError 1 (listCmd "python"))⟩ ∧
    all_packages "python" wListGarbage =
      Except.error ⟨ExcKind.valueError, "Failed to parse pip output.",
        some PyCause.jsonDecodeError⟩ ∧
    excKindOf (all_packages "python" wListBroken) =
      excKindOf (all_packages "python" wListGarbage) :=
  list_failures_valueerror "python" "garbage" 1 wListBroken wListGarbage
    rfl rfl rfl

/-- Claim C8: for every environment root and filesystem, the interpreter is
located at `<root>\Scripts\python.exe` on Windows hosts and at
`<root>/bin/python` on POSIX hosts; `get_python_executable` returns that
path exactly when the filesystem's regular-file test accepts it, and raises
`FileNotFoundError` exactly when it does not; `EnvManager` construction
fails under exactly the same condition. -/
theorem interpreter_path_convention (env_path : String)
    (isfile : String → Bool) :
    (get_python_executable HostOS.windows env_path isfile =
        Except.ok (env_path ++ "\\Scripts\\python.exe") ↔
      isfile (env_path ++ "\\Scripts\\python.exe") = true) ∧
    (get_python_executable HostOS.windows env_path isfile =
        Except.error ⟨ExcKind.fileNotFoundError,
          "Python executable not found in virtual environment at " ++
            env_path, none⟩ ↔
      isfile (env_path ++ "\\Scripts\\python.exe") = false) ∧
    (get_python_executable HostOS.posix env_path isfile =
        Except.ok (env_path ++ "/bin/python") ↔
      isfile (env_path ++ "/bin/python") = true) ∧
    (get_python_executable HostOS.posix env_path isfile =
        Except.error ⟨ExcKind.fileNotFoundError,
          "Python executable not found in virtual environment at " ++
            env_path, none⟩ ↔
      isfile (env_path ++ "/bin/python") = false) ∧
    (∀ host, isError (EnvManager.construct host env_path isfile) =
      isError (get_python_executable host env_path isfile)) := by
  have hw : os_path_join3 HostOS.windows env_path "Scripts" "python.exe" =
      env_path ++ "\\Scripts\\python.exe" := rfl
  have hp : os_path_join3 HostOS.posix env_path "bin" "python" =
      env_path ++ "/bin/python" := rfl
  refine ⟨?_, ?_, ?_, ?_, ?_⟩
  · by_cases h : isfile (env_path ++ "\\Scripts\\python.exe") <;>
      simp [get_python_executable, hw, h]
  · by_cases h : isfile (env_path ++ "\\Scripts\\python.exe") <;>
      simp [get_python_executable, hw, h]
  · by_cases h : isfile (env_path ++ "/bin/python") <;>
      simp [get_python_executable, hp, h]
  · by_cases h : isfile (env_path ++ "/bin/python") <;>
      simp [get_python_executable, hp, h]
  · intro host
    cases hres : get_python_executable host env_path isfile <;>
      simp [EnvManager.construct, hres, isError]

/-- Claim C10: calling `install_package`'s command builder with the empty
string as the version produces exactly the same install command as passing
no version at all — Python's `if version:` is false on `""`, so the empty
constraint is silently ignored and no `==` pin is formed. -/
theorem empty_version_same_command (python_exe package_name : String)
    (upgrade : Bool) :
    buildInstallCmd python_exe package_name (some "") upgrade =
      buildInstallCmd python_exe package_name none upgrade := by
  simp [buildInstallCmd]

end EnvMngr
